import Mathlib

/-!
# Menu extension hook (`src/main.cpp`)

A shallow embedding of the two `$modify(MyMenuLayer, MenuLayer)` hooks and of the
two button callbacks of `src/main.cpp`.

The program is a straight-line sequence of calls into the host engine (cocos2d /
Geode).  The host is represented by

* a scene graph `Scene`: a table of nodes addressed by `NodeRef`, the counterpart of
  the `CCNode*` pointers of the source; a nullable pointer is an `Option NodeRef`;
* the list of dialogs that have been put on screen;
* the list `calls` of host calls the program has made, in program order;
* a `Host` record for the parts of the host whose behaviour the source does not fix:
  the mod id, the original `MenuLayer::init`, and the positions a layout pass
  assigns.

A run either returns a value or dereferences a null pointer (`Result.undefined`).

The functions of `src/main.cpp` are `MyMenuLayer.init`, `MyMenuLayer.onMyButton`,
`onHelloButton` and `Second.MyMenuLayer.init`; they are transcribed statement by
statement.  Everything they call belongs to the host (Geode SDK / cocos2d), whose source
is not part of the repository.  What is assumed of the host:

* `getChildByID` searches the direct children of the receiver, returns the first one
  with the ID, and returns null when there is none;
* `addChild` appends the child to the receiver's children;
* the `create` functions always return a new node, without ID;
* `setID` and `setPosition` change that one attribute of that one node;
* a layout pass moves the children of the container and changes nothing else;
* a method call on a null pointer is undefined;
* the original `MenuLayer::init` is an arbitrary function of the scene graph.
-/

namespace Feurdll

/-- A pointer to a scene-graph node (`CCNode*` that is known to be non-null). -/
abbrev NodeRef := Nat

/-- Counterpart of `CCPoint`.  The only coordinates the source writes are the literals
`-100.0f`, which are integers; coordinates are carried as exact integers. -/
structure CCPoint where
  x : Int
  y : Int
deriving DecidableEq, Repr

/-- The callbacks that `menu_selector(...)` is applied to in the source. -/
inductive Selector where
  | onMyButton
  | onHelloButton
deriving DecidableEq, Repr

/-- What a node is.  `other` stands for every node the host built itself. -/
inductive NodeKind where
  | other
  | sprite (frameName : String)
  | labelTTF (text : String) (font : String) (size : Int)
  | menuItemSpriteExtra (image : NodeRef) (target : NodeRef) (selector : Selector)
deriving DecidableEq, Repr

/-- A scene-graph node: its kind, its Geode string ID (empty until `setID`), its
children in order of insertion, and its position. -/
structure Node where
  kind : NodeKind
  id : String
  children : List NodeRef
  position : CCPoint
deriving DecidableEq, Repr

/-- The scene graph: node `r` is the `r`-th entry of the table. -/
structure Scene where
  nodes : List Node
deriving DecidableEq, Repr

/-- The three strings of `FLAlertLayer::create(title, body, button)`. -/
structure Dialog where
  title : String
  body : String
  button : String
deriving DecidableEq, Repr

/-- The levels of `geode::log` used by the source. -/
inductive LogLevel where
  | debug
  | info
deriving DecidableEq, Repr

/-- One call from the program into the host, with its arguments (and its result where
the call returns a pointer). -/
inductive Call where
  | menuLayerInit (self : NodeRef)
  | log (level : LogLevel) (fmt : String) (args : List Nat)
  | createWithSpriteFrameName (frameName : String) (result : NodeRef)
  | labelTTFCreate (text : String) (font : String) (size : Int) (result : NodeRef)
  | menuItemCreate (image : NodeRef) (target : NodeRef) (selector : Selector)
      (result : NodeRef)
  | getChildByID (self : NodeRef) (id : String) (result : Option NodeRef)
  | addChild (parent : Option NodeRef) (child : NodeRef)
  | setID (node : NodeRef) (id : String)
  | setPosition (node : NodeRef) (p : CCPoint)
  | updateLayout (node : Option NodeRef)
  | alertCreate (d : Dialog)
  | alertShow (d : Dialog)
deriving DecidableEq, Repr

/-- Everything a run can observe or change. -/
structure World where
  scene : Scene
  shown : List Dialog
  calls : List Call
deriving DecidableEq, Repr

/-- The parts of the host that the source leaves open. -/
structure Host where
  /-- The id of the mod, which the `_spr` literal operator prefixes. -/
  modID : String
  /-- The original `MenuLayer::init` run on `this`: its result and the scene it leaves. -/
  menuLayerInit : Scene → NodeRef → Bool × Scene
  /-- The position a layout pass over `container` gives to `child`. -/
  layoutPosition : Scene → (container : NodeRef) → (child : NodeRef) → CCPoint

/-- Outcome of a run: a returned value, or a null-pointer dereference.  In both cases
the world reached is kept (for `undefined`: the world at the faulting call). -/
inductive Result (α : Type) where
  | ok (a : α) (w : World)
  | undefined (w : World)

/-- The world a run ended in. -/
def Result.world {α : Type} : Result α → World
  | .ok _ w => w
  | .undefined w => w

/-- The value a run returned, if it returned. -/
def Result.value? {α : Type} : Result α → Option α
  | .ok a _ => some a
  | .undefined _ => none

/-- A piece of program: a function of the world. -/
def Hook (α : Type) : Type := World → Result α

instance : Monad Hook where
  pure a := fun w => Result.ok a w
  bind m f := fun w =>
    match m w with
    | Result.ok a w1 => f a w1
    | Result.undefined w1 => Result.undefined w1

/-! ## The scene graph -/

/-- The node a reference points to, if any. -/
def Scene.node? (s : Scene) (r : NodeRef) : Option Node := s.nodes[r]?

/-- The children of a node (none for a dangling reference). -/
def Scene.childrenOf (s : Scene) (r : NodeRef) : List NodeRef :=
  match s.node? r with
  | some n => n.children
  | none => []

/-- The ID of a node. -/
def Scene.idOf (s : Scene) (r : NodeRef) : Option String :=
  (s.node? r).map Node.id

/-- Allocation of a new node: it gets the first unused reference. -/
def Scene.alloc (s : Scene) (n : Node) : NodeRef × Scene :=
  (s.nodes.length, { nodes := s.nodes ++ [n] })

/-- In-place update of one node. -/
def Scene.update (s : Scene) (r : NodeRef) (f : Node → Node) : Scene :=
  { nodes := s.nodes.modify f r }

/-- A node as the host's `create` functions return it: no ID, at the origin. -/
def Node.fresh (kind : NodeKind) (children : List NodeRef) : Node :=
  { kind := kind, id := "", children := children, position := ⟨0, 0⟩ }

/-- Modelled from the spec: the host's `CCNode::getChildByID` (Geode SDK, source not in
the repository), the "string-keyed lookup of a child node": the first direct child
carrying the ID; when absent "the lookup yields an empty reference". -/
def Scene.getChildByID (s : Scene) (self : NodeRef) (id : String) : Option NodeRef :=
  (s.childrenOf self).find? (fun c => decide (s.idOf c = some id))

/-- Modelled from the spec: the host's `CCNode::addChild` (cocos2d, source not in the
repository), "attaches the button as a child of the looked-up container": the child is
appended to the parent's children. -/
def Scene.addChild (s : Scene) (parent child : NodeRef) : Scene :=
  s.update parent (fun n => { n with children := n.children ++ [child] })

/-- Modelled from the spec: the host's `CCNode::setID` (Geode SDK, source not in the
repository): "sets a ... string identifier on a created node". -/
def Scene.setID (s : Scene) (r : NodeRef) (id : String) : Scene :=
  s.update r (fun n => { n with id := id })

/-- Modelled from the spec: the host's `CCNode::setPosition` (cocos2d, source not in the
repository): "sets an explicit screen-space offset". -/
def Scene.setPosition (s : Scene) (r : NodeRef) (p : CCPoint) : Scene :=
  s.update r (fun n => { n with position := p })

/-- Modelled from the spec: the host's layout pass behind `CCNode::updateLayout` (Geode
SDK, source not in the repository), which "recompute[s] automatic layout of its
children": each child of `container` is moved to the position the host's layout assigns
to it; nothing else changes. -/
def Scene.relayout (host : Host) (s : Scene) (container : NodeRef) : Scene :=
  { nodes := s.nodes.mapIdx (fun i n =>
      if i ∈ s.childrenOf container then
        { n with position := host.layoutPosition s container i }
      else n) }

/-! ## Host calls -/

/-- Append a call to the record of calls. -/
def World.record (w : World) (c : Call) : World :=
  { w with calls := w.calls ++ [c] }

/-- The call `MenuLayer::init()`: the original of the hooked method, supplied by the
host. -/
def MenuLayer.init (host : Host) (self : NodeRef) : Hook Bool := fun w =>
  let r := host.menuLayerInit w.scene self
  Result.ok r.1 { (w.record (Call.menuLayerInit self)) with scene := r.2 }

/-- The call `this->getChildrenCount()`. -/
def getChildrenCount (self : NodeRef) : Hook Nat := fun w =>
  Result.ok (w.scene.childrenOf self).length w

/-- The call `log::debug(fmt, args...)`: it only emits a message. -/
def log.debug (fmt : String) (args : List Nat) : Hook Unit := fun w =>
  Result.ok () (w.record (Call.log LogLevel.debug fmt args))

/-- The call `log::info(fmt, args...)`: it only emits a message. -/
def log.info (fmt : String) (args : List Nat) : Hook Unit := fun w =>
  Result.ok () (w.record (Call.log LogLevel.info fmt args))

/-- The call `CCSprite::createWithSpriteFrameName(name)`: a new sprite node. -/
def CCSprite.createWithSpriteFrameName (frameName : String) : Hook NodeRef := fun w =>
  let a := w.scene.alloc (Node.fresh (NodeKind.sprite frameName) [])
  Result.ok a.1
    { (w.record (Call.createWithSpriteFrameName frameName a.1)) with scene := a.2 }

/-- The call `CCLabelTTF::create(text, font, size)`: a new label node. -/
def CCLabelTTF.create (text font : String) (size : Int) : Hook NodeRef := fun w =>
  let a := w.scene.alloc (Node.fresh (NodeKind.labelTTF text font size) [])
  Result.ok a.1 { (w.record (Call.labelTTFCreate text font size a.1)) with scene := a.2 }

/-- The call `CCMenuItemSpriteExtra::create(image, target, selector)`: a new button
node that shows `image` (its only child) and calls `selector` on `target` when activated. -/
def CCMenuItemSpriteExtra.create (image target : NodeRef) (selector : Selector) :
    Hook NodeRef := fun w =>
  let a := w.scene.alloc
    (Node.fresh (NodeKind.menuItemSpriteExtra image target selector) [image])
  Result.ok a.1
    { (w.record (Call.menuItemCreate image target selector a.1)) with scene := a.2 }

/-- The call `this->getChildByID(id)`; the result may be null. -/
def getChildByID (self : NodeRef) (id : String) : Hook (Option NodeRef) := fun w =>
  let r := w.scene.getChildByID self id
  Result.ok r (w.record (Call.getChildByID self id r))

/-- The call `parent->addChild(child)`; undefined when `parent` is null. -/
def addChild (parent : Option NodeRef) (child : NodeRef) : Hook Unit := fun w =>
  let w1 := w.record (Call.addChild parent child)
  match parent with
  | none => Result.undefined w1
  | some p => Result.ok () { w1 with scene := w1.scene.addChild p child }

/-- The call `node->setID(id)`. -/
def setID (node : NodeRef) (id : String) : Hook Unit := fun w =>
  Result.ok () { (w.record (Call.setID node id)) with scene := w.scene.setID node id }

/-- The call `node->setPosition(p)`. -/
def setPosition (node : NodeRef) (p : CCPoint) : Hook Unit := fun w =>
  Result.ok ()
    { (w.record (Call.setPosition node p)) with scene := w.scene.setPosition node p }

/-- The call `node->updateLayout()`; undefined when `node` is null. -/
def updateLayout (host : Host) (node : Option NodeRef) : Hook Unit := fun w =>
  let w1 := w.record (Call.updateLayout node)
  match node with
  | none => Result.undefined w1
  | some m => Result.ok () { w1 with scene := Scene.relayout host w1.scene m }

/-- The call `FLAlertLayer::create(title, body, button)`: the "three-string-argument
... modal construction" of the spec. -/
def FLAlertLayer.create (title body button : String) : Hook Dialog := fun w =>
  let d : Dialog := { title := title, body := body, button := button }
  Result.ok d (w.record (Call.alertCreate d))

/-- The call `dialog->show()`: the dialog is put on screen. -/
def FLAlertLayer.show (d : Dialog) : Hook Unit := fun w =>
  Result.ok () { (w.record (Call.alertShow d)) with shown := w.shown ++ [d] }

/-- The `_spr` literal operator: the string prefixed with the mod id and a slash
(`src/main.cpp`, lines 73-76). -/
def spr (host : Host) (s : String) : String := host.modID ++ "/" ++ s

/-! ## The program -/

/-- First hook, `MyMenuLayer::init` (`src/main.cpp`, lines 36-90). -/
def MyMenuLayer.init (host : Host) (self : NodeRef) : Hook Bool := do
  if !(← MenuLayer.init host self) then
    return false
  log.debug "Hello from my MenuLayer::init hook! This layer has \x7b\x7d children."
    [← getChildrenCount self]
  let myButton ← CCMenuItemSpriteExtra.create
    (← CCSprite.createWithSpriteFrameName "GJ_likeBtn_001.png")
    self
    Selector.onMyButton
  let menu ← getChildByID self "bottom-menu"
  addChild menu myButton
  setID myButton (spr host "my-button")
  updateLayout host menu
  return true

/-- The callback `MyMenuLayer::onMyButton(CCObject*)` (`src/main.cpp`, lines 97-99). -/
def MyMenuLayer.onMyButton (_self : NodeRef) (_sender : Option NodeRef) : Hook Unit := do
  FLAlertLayer.show (← FLAlertLayer.create "Eres muy fea" "Zuly fra" "Fea")

/-- The free function `onHelloButton(CCObject* sender)` (`src/main.cpp`, lines 109-112). -/
def onHelloButton (_sender : Option NodeRef) : Hook Unit := do
  FLAlertLayer.show
    (← FLAlertLayer.create "Mi Mod Personal" "¡Hola desde mi mod hecho en Android!" "OK")

/-- Second hook, the second `MyMenuLayer::init` (`src/main.cpp`, lines 120-152).  The
source declares the class `MyMenuLayer` twice; the second one lives in `Second`. -/
def Second.MyMenuLayer.init (host : Host) (self : NodeRef) : Hook Bool := do
  if !(← MenuLayer.init host self) then
    return false
  let buttonSprite ← CCLabelTTF.create "HOLA" "Arial" 20
  let myButton ← CCMenuItemSpriteExtra.create
    buttonSprite
    self
    Selector.onHelloButton
  let menu ← getChildByID self "main-menu-node"
  addChild menu myButton
  setPosition myButton ⟨-100, -100⟩
  log.info "Botón 'HOLA' añadido al menú principal." []
  return true

/-- What `menu_selector(f)` resolves to when the host calls it on `target` with
`sender`. -/
def Selector.invoke (sel : Selector) (target : NodeRef) (sender : Option NodeRef) :
    Hook Unit :=
  match sel with
  | Selector.onMyButton => MyMenuLayer.onMyButton target sender
  | Selector.onHelloButton => Feurdll.onHelloButton sender

/-- Modelled from the spec: the host's `CCMenuItem::activate` (cocos2d, source not in
the repository), the "engine-dispatched input event" of a button press: the bound
selector is called on the bound target with the button as sender.  Nodes that are not
buttons do nothing. -/
def CCMenuItem.activate (btn : NodeRef) : Hook Unit := fun w =>
  match (w.scene.node? btn).map Node.kind with
  | some (NodeKind.menuItemSpriteExtra _ target sel) => sel.invoke target (some btn) w
  | _ => Result.ok () w

/-! ## Auxiliary definitions used in the statements -/

/-- The scene after a visual of kind `visual` and a button showing it (bound to `target`
and `sel`) have been created in `s`: the visual gets the first unused reference, the
button the next one. -/
def Scene.withButton (s : Scene) (visual : NodeKind) (target : NodeRef) (sel : Selector) :
    Scene :=
  { nodes := s.nodes ++
      [Node.fresh visual [],
       Node.fresh (NodeKind.menuItemSpriteExtra s.nodes.length target sel)
         [s.nodes.length]] }

/-- The kind of a node. -/
def Scene.kindOf (s : Scene) (r : NodeRef) : Option NodeKind :=
  (s.node? r).map Node.kind

/-- The position of a node. -/
def Scene.positionOf (s : Scene) (r : NodeRef) : Option CCPoint :=
  (s.node? r).map Node.position

/-- The dialog of `MyMenuLayer::onMyButton`. -/
def myButtonDialog : Dialog :=
  { title := "Eres muy fea", body := "Zuly fra", button := "Fea" }

/-- The dialog of `onHelloButton`. -/
def helloDialog : Dialog :=
  { title := "Mi Mod Personal", body := "¡Hola desde mi mod hecho en Android!",
    button := "OK" }

/-- A menu as the original `MenuLayer::init` might leave it: the layer (node 0) with a
`main-menu-node` (node 1) and a `bottom-menu` (node 2) that already holds one button
(node 3). -/
def sampleMenu : Scene :=
  { nodes :=
      [{ kind := NodeKind.other, id := "MenuLayer", children := [1, 2],
         position := ⟨0, 0⟩ },
       { kind := NodeKind.other, id := "main-menu-node", children := [],
         position := ⟨0, 0⟩ },
       { kind := NodeKind.other, id := "bottom-menu", children := [3],
         position := ⟨0, -120⟩ },
       { kind := NodeKind.other, id := "settings-button", children := [],
         position := ⟨0, 0⟩ }] }

/-- A layer that has not been initialised yet: a single node without children. -/
def blankLayer : Scene :=
  { nodes := [{ kind := NodeKind.other, id := "", children := [], position := ⟨0, 0⟩ }] }

/-- A host whose `MenuLayer::init` succeeds and builds `sampleMenu`; its layouts put the
children of a container in a row, 40 units apart. -/
def sampleHost : Host :=
  { modID := "sebastianjk73.feurdll"
    menuLayerInit := fun _ _ => (true, sampleMenu)
    layoutPosition := fun s container child =>
      ⟨40 * ((s.childrenOf container).indexOf child : Int), 0⟩ }

/-- A host whose `MenuLayer::init` succeeds but builds no children at all. -/
def bareHost : Host :=
  { modID := "sebastianjk73.feurdll"
    menuLayerInit := fun s _ => (true, s)
    layoutPosition := fun _ _ _ => ⟨0, 0⟩ }

/-- A host whose `MenuLayer::init` fails and leaves the scene as it found it. -/
def failingHost : Host :=
  { modID := "sebastianjk73.feurdll"
    menuLayerInit := fun s _ => (false, s)
    layoutPosition := fun _ _ _ => ⟨0, 0⟩ }

/-- The world before the hook runs: the blank layer, nothing on screen, no calls. -/
def blankWorld : World :=
  { scene := blankLayer, shown := [], calls := [] }

/-! ## Lemmas on the monad and on the scene graph -/

theorem bind_apply {α β : Type} (m : Hook α) (f : α → Hook β) (w : World) :
    (m >>= f) w = match m w with
      | Result.ok a w1 => f a w1
      | Result.undefined w1 => Result.undefined w1 := rfl

theorem pure_apply {α : Type} (a : α) (w : World) :
    (pure a : Hook α) w = Result.ok a w := rfl

theorem Scene.alloc_fst (s : Scene) (n : Node) : (s.alloc n).1 = s.nodes.length := rfl

theorem Scene.alloc_snd (s : Scene) (n : Node) :
    (s.alloc n).2 = { nodes := s.nodes ++ [n] } := rfl

theorem Scene.node?_update (s : Scene) (r r' : NodeRef) (f : Node → Node) :
    (s.update r f).node? r' = if r = r' then (s.node? r').map f else s.node? r' := by
  simp only [Scene.update, Scene.node?, List.getElem?_modify]
  split <;> simp

theorem Scene.node?_relayout (host : Host) (s : Scene) (m r : NodeRef) :
    (Scene.relayout host s m).node? r =
      (s.node? r).map (fun n =>
        if r ∈ s.childrenOf m then { n with position := host.layoutPosition s m r }
        else n) := by
  simp [Scene.relayout, Scene.node?, List.getElem?_mapIdx]

theorem Scene.node?_append_old (s : Scene) (ns : List Node) (r : NodeRef)
    (h : r < s.nodes.length) :
    Scene.node? { nodes := s.nodes ++ ns } r = s.node? r := by
  simp [Scene.node?, List.getElem?_append_left h]

theorem Scene.node?_append_new (s : Scene) (ns : List Node) (r : NodeRef)
    (h : s.nodes.length ≤ r) :
    Scene.node? { nodes := s.nodes ++ ns } r = ns[r - s.nodes.length]? := by
  simp [Scene.node?, List.getElem?_append_right h]

theorem Scene.node?_none (s : Scene) (r : NodeRef) (h : s.nodes.length ≤ r) :
    s.node? r = none := by
  simp [Scene.node?, h]

theorem Scene.lt_of_idOf (s : Scene) (r : NodeRef) (id : String)
    (h : s.idOf r = some id) : r < s.nodes.length := by
  rcases Nat.lt_or_ge r s.nodes.length with hr | hr
  · exact hr
  · simp [Scene.idOf, Scene.node?_none s r hr] at h

/-- A successful lookup returns a child of the node that carries the ID, hence a live
node. -/
theorem Scene.getChildByID_some (s : Scene) (self m : NodeRef) (key : String)
    (h : s.getChildByID self key = some m) :
    m ∈ s.childrenOf self ∧ s.idOf m = some key ∧ m < s.nodes.length := by
  unfold Scene.getChildByID at h
  have h1 := List.mem_of_find?_eq_some h
  have h2 := List.find?_some h
  have h3 : s.idOf m = some key := by simpa using h2
  exact ⟨h1, h3, Scene.lt_of_idOf s m key h3⟩

/-- Appending nodes that neither carry the ID nor have a child carrying it does not
change what a lookup by ID returns. -/
theorem Scene.getChildByID_append (s : Scene) (ns : List Node) (self : NodeRef)
    (key : String) (hid : ∀ n ∈ ns, n.id ≠ key)
    (hch : ∀ n ∈ ns, ∀ c ∈ n.children,
      Scene.idOf { nodes := s.nodes ++ ns } c ≠ some key) :
    Scene.getChildByID { nodes := s.nodes ++ ns } self key = s.getChildByID self key := by
  have hp : ∀ c, decide (Scene.idOf { nodes := s.nodes ++ ns } c = some key)
      = decide (s.idOf c = some key) := by
    intro c
    rcases Nat.lt_or_ge c s.nodes.length with hc | hc
    · simp [Scene.idOf, Scene.node?_append_old s ns c hc]
    · have h1 : s.idOf c = none := by simp [Scene.idOf, Scene.node?_none s c hc]
      have h2 : Scene.idOf { nodes := s.nodes ++ ns } c ≠ some key := by
        simp only [Scene.idOf, Scene.node?_append_new s ns c hc]
        cases hn : ns[c - s.nodes.length]? with
        | none => simp
        | some n =>
          have hmem : n ∈ ns := List.getElem?_mem hn
          simpa using hid n hmem
      simp [h1, h2]
  unfold Scene.getChildByID
  rw [funext hp]
  rcases Nat.lt_or_ge self s.nodes.length with hs | hs
  · simp [Scene.childrenOf, Scene.node?_append_old s ns self hs]
  · have h1 : s.childrenOf self = [] := by
      simp [Scene.childrenOf, Scene.node?_none s self hs]
    rw [h1]
    simp only [Scene.childrenOf, Scene.node?_append_new s ns self hs, List.find?_nil]
    cases hn : ns[self - s.nodes.length]? with
    | none => simp
    | some n =>
      have hmem : n ∈ ns := List.getElem?_mem hn
      simp only [List.find?_eq_none]
      intro c hc
      have := hch n hmem c hc
      rw [← hp c]
      simpa using this

/-- Creating a visual and a button does not change what a lookup by a non-empty ID
returns: the new nodes have no ID yet. -/
theorem Scene.withButton_lookup (s : Scene) (visual : NodeKind) (target : NodeRef)
    (sel : Selector) (self : NodeRef) (key : String) (hkey : key ≠ "") :
    (s.withButton visual target sel).getChildByID self key = s.getChildByID self key := by
  unfold Scene.withButton
  apply Scene.getChildByID_append
  · intro n hn
    simp only [List.mem_cons, List.mem_singleton, List.not_mem_nil, or_false] at hn
    rcases hn with rfl | rfl <;> simpa [Node.fresh] using hkey.symm
  · intro n hn c hc
    simp only [List.mem_cons, List.mem_singleton, List.not_mem_nil, or_false] at hn
    rcases hn with rfl | rfl
    · simp [Node.fresh] at hc
    · simp only [Node.fresh, List.mem_singleton] at hc
      subst hc
      simp only [Scene.idOf, Scene.node?_append_new s _ s.nodes.length (Nat.le_refl _)]
      simpa using hkey.symm

theorem Scene.withButton_node?_old (s : Scene) (visual : NodeKind) (target : NodeRef)
    (sel : Selector) (r : NodeRef) (h : r < s.nodes.length) :
    (s.withButton visual target sel).node? r = s.node? r :=
  Scene.node?_append_old s _ r h

theorem Scene.withButton_node?_visual (s : Scene) (visual : NodeKind) (target : NodeRef)
    (sel : Selector) :
    (s.withButton visual target sel).node? s.nodes.length
      = some (Node.fresh visual []) := by
  simp [Scene.withButton, Scene.node?_append_new s _ s.nodes.length (Nat.le_refl _)]

theorem Scene.withButton_node?_button (s : Scene) (visual : NodeKind) (target : NodeRef)
    (sel : Selector) :
    (s.withButton visual target sel).node? (s.nodes.length + 1)
      = some (Node.fresh (NodeKind.menuItemSpriteExtra s.nodes.length target sel)
          [s.nodes.length]) := by
  simp [Scene.withButton, Scene.node?_append_new s _ (s.nodes.length + 1) (Nat.le_succ _)]

/-! ## The runs of the two hooks, written out -/

/-- The first hook when the original `init` fails. -/
theorem MyMenuLayer.init_of_orig_false (host : Host) (self : NodeRef) (w : World)
    (h : (host.menuLayerInit w.scene self).1 = false) :
    MyMenuLayer.init host self w = Result.ok false
      { scene := (host.menuLayerInit w.scene self).2, shown := w.shown,
        calls := w.calls ++ [Call.menuLayerInit self] } := by
  simp [MyMenuLayer.init, bind_apply, pure_apply, MenuLayer.init, h, World.record]

/-- The second hook when the original `init` fails. -/
theorem Second.MyMenuLayer.second_init_of_orig_false (host : Host) (self : NodeRef) (w : World)
    (h : (host.menuLayerInit w.scene self).1 = false) :
    Second.MyMenuLayer.init host self w = Result.ok false
      { scene := (host.menuLayerInit w.scene self).2, shown := w.shown,
        calls := w.calls ++ [Call.menuLayerInit self] } := by
  simp [Second.MyMenuLayer.init, bind_apply, pure_apply, MenuLayer.init, h, World.record]

/-- The first hook when the original `init` succeeds and leaves scene `s1`. -/
theorem MyMenuLayer.init_of_orig_true (host : Host) (self : NodeRef) (w : World)
    (s1 : Scene) (horig : host.menuLayerInit w.scene self = (true, s1)) :
    MyMenuLayer.init host self w =
      match s1.getChildByID self "bottom-menu" with
      | none => Result.undefined
          { scene := s1.withButton (NodeKind.sprite "GJ_likeBtn_001.png") self
              Selector.onMyButton,
            shown := w.shown,
            calls := w.calls ++
              [Call.menuLayerInit self,
               Call.log LogLevel.debug
                 "Hello from my MenuLayer::init hook! This layer has \x7b\x7d children."
                 [(s1.childrenOf self).length],
               Call.createWithSpriteFrameName "GJ_likeBtn_001.png" s1.nodes.length,
               Call.menuItemCreate s1.nodes.length self Selector.onMyButton
                 (s1.nodes.length + 1),
               Call.getChildByID self "bottom-menu" none,
               Call.addChild none (s1.nodes.length + 1)] }
      | some m => Result.ok true
          { scene := Scene.relayout host
              (((s1.withButton (NodeKind.sprite "GJ_likeBtn_001.png") self
                  Selector.onMyButton).addChild m (s1.nodes.length + 1)).setID
                (s1.nodes.length + 1) (spr host "my-button")) m,
            shown := w.shown,
            calls := w.calls ++
              [Call.menuLayerInit self,
               Call.log LogLevel.debug
                 "Hello from my MenuLayer::init hook! This layer has \x7b\x7d children."
                 [(s1.childrenOf self).length],
               Call.createWithSpriteFrameName "GJ_likeBtn_001.png" s1.nodes.length,
               Call.menuItemCreate s1.nodes.length self Selector.onMyButton
                 (s1.nodes.length + 1),
               Call.getChildByID self "bottom-menu" (some m),
               Call.addChild (some m) (s1.nodes.length + 1),
               Call.setID (s1.nodes.length + 1) (spr host "my-button"),
               Call.updateLayout (some m)] } := by
  have hl := Scene.withButton_lookup s1 (NodeKind.sprite "GJ_likeBtn_001.png") self
    Selector.onMyButton self "bottom-menu" (by decide)
  unfold Scene.withButton at hl
  simp [MyMenuLayer.init, bind_apply, pure_apply, MenuLayer.init, horig, World.record,
    getChildrenCount, log.debug, CCSprite.createWithSpriteFrameName,
    CCMenuItemSpriteExtra.create, getChildByID, addChild, setID, updateLayout,
    Scene.alloc_fst, Scene.alloc_snd, hl, Scene.withButton]
  cases s1.getChildByID self "bottom-menu" <;> simp

/-- The second hook when the original `init` succeeds and leaves scene `s1`. -/
theorem Second.MyMenuLayer.second_init_of_orig_true (host : Host) (self : NodeRef) (w : World)
    (s1 : Scene) (horig : host.menuLayerInit w.scene self = (true, s1)) :
    Second.MyMenuLayer.init host self w =
      match s1.getChildByID self "main-menu-node" with
      | none => Result.undefined
          { scene := s1.withButton (NodeKind.labelTTF "HOLA" "Arial" 20) self
              Selector.onHelloButton,
            shown := w.shown,
            calls := w.calls ++
              [Call.menuLayerInit self,
               Call.labelTTFCreate "HOLA" "Arial" 20 s1.nodes.length,
               Call.menuItemCreate s1.nodes.length self Selector.onHelloButton
                 (s1.nodes.length + 1),
               Call.getChildByID self "main-menu-node" none,
               Call.addChild none (s1.nodes.length + 1)] }
      | some m => Result.ok true
          { scene := ((s1.withButton (NodeKind.labelTTF "HOLA" "Arial" 20) self
                Selector.onHelloButton).addChild m (s1.nodes.length + 1)).setPosition
              (s1.nodes.length + 1) ⟨-100, -100⟩,
            shown := w.shown,
            calls := w.calls ++
              [Call.menuLayerInit self,
               Call.labelTTFCreate "HOLA" "Arial" 20 s1.nodes.length,
               Call.menuItemCreate s1.nodes.length self Selector.onHelloButton
                 (s1.nodes.length + 1),
               Call.getChildByID self "main-menu-node" (some m),
               Call.addChild (some m) (s1.nodes.length + 1),
               Call.setPosition (s1.nodes.length + 1) ⟨-100, -100⟩,
               Call.log LogLevel.info "Botón 'HOLA' añadido al menú principal." []] } := by
  have hl := Scene.withButton_lookup s1 (NodeKind.labelTTF "HOLA" "Arial" 20) self
    Selector.onHelloButton self "main-menu-node" (by decide)
  unfold Scene.withButton at hl
  simp [Second.MyMenuLayer.init, bind_apply, pure_apply, MenuLayer.init, horig,
    World.record, log.info, CCLabelTTF.create,
    CCMenuItemSpriteExtra.create, getChildByID, addChild, setPosition,
    Scene.alloc_fst, Scene.alloc_snd, hl, Scene.withButton]
  cases s1.getChildByID self "main-menu-node" <;> simp

/-! ## What each scene operation changes -/

theorem Scene.childrenOf_relayout (host : Host) (s : Scene) (m r : NodeRef) :
    (Scene.relayout host s m).childrenOf r = s.childrenOf r := by
  simp only [Scene.childrenOf, Scene.node?_relayout]
  cases s.node? r with
  | none => rfl
  | some n => simp only [Option.map_some']; split <;> rfl

theorem Scene.idOf_relayout (host : Host) (s : Scene) (m r : NodeRef) :
    (Scene.relayout host s m).idOf r = s.idOf r := by
  simp only [Scene.idOf, Scene.node?_relayout]
  cases s.node? r with
  | none => rfl
  | some n => simp only [Option.map_some']; split <;> rfl

theorem Scene.kindOf_relayout (host : Host) (s : Scene) (m r : NodeRef) :
    (Scene.relayout host s m).kindOf r = s.kindOf r := by
  simp only [Scene.kindOf, Scene.node?_relayout]
  cases s.node? r with
  | none => rfl
  | some n => simp only [Option.map_some']; split <;> rfl

theorem Scene.childrenOf_setID (s : Scene) (r r' : NodeRef) (id : String) :
    (s.setID r id).childrenOf r' = s.childrenOf r' := by
  simp only [Scene.childrenOf, Scene.setID, Scene.node?_update]
  by_cases h : r = r'
  · rw [if_pos h]; cases s.node? r' <;> rfl
  · rw [if_neg h]

theorem Scene.kindOf_setID (s : Scene) (r r' : NodeRef) (id : String) :
    (s.setID r id).kindOf r' = s.kindOf r' := by
  simp only [Scene.kindOf, Scene.setID, Scene.node?_update]
  by_cases h : r = r'
  · rw [if_pos h]; cases s.node? r' <;> rfl
  · rw [if_neg h]

theorem Scene.idOf_setID_self (s : Scene) (r : NodeRef) (id : String)
    (h : r < s.nodes.length) : (s.setID r id).idOf r = some id := by
  have hn : ∃ n, s.node? r = some n := by
    simp only [Scene.node?]
    exact ⟨s.nodes[r], List.getElem?_eq_getElem h⟩
  obtain ⟨n, hn⟩ := hn
  simp [Scene.idOf, Scene.setID, Scene.node?_update, hn]

theorem Scene.idOf_setID_ne (s : Scene) (r r' : NodeRef) (id : String) (h : r ≠ r') :
    (s.setID r id).idOf r' = s.idOf r' := by
  simp [Scene.idOf, Scene.setID, Scene.node?_update, h]

theorem Scene.childrenOf_addChild_self (s : Scene) (p c : NodeRef)
    (h : p < s.nodes.length) :
    (s.addChild p c).childrenOf p = s.childrenOf p ++ [c] := by
  have hn : ∃ n, s.node? p = some n := by
    simp only [Scene.node?]
    exact ⟨s.nodes[p], List.getElem?_eq_getElem h⟩
  obtain ⟨n, hn⟩ := hn
  simp [Scene.childrenOf, Scene.addChild, Scene.node?_update, hn]

theorem Scene.node?_addChild_ne (s : Scene) (p c r : NodeRef) (h : p ≠ r) :
    (s.addChild p c).node? r = s.node? r := by
  simp [Scene.addChild, Scene.node?_update, h]

theorem Scene.childrenOf_addChild_ne (s : Scene) (p c r : NodeRef) (h : p ≠ r) :
    (s.addChild p c).childrenOf r = s.childrenOf r := by
  simp [Scene.childrenOf, Scene.node?_addChild_ne s p c r h]

theorem Scene.idOf_addChild (s : Scene) (p c r : NodeRef) :
    (s.addChild p c).idOf r = s.idOf r := by
  simp only [Scene.idOf, Scene.addChild, Scene.node?_update]
  by_cases h : p = r
  · rw [if_pos h]; cases s.node? r <;> rfl
  · rw [if_neg h]

theorem Scene.kindOf_addChild (s : Scene) (p c r : NodeRef) :
    (s.addChild p c).kindOf r = s.kindOf r := by
  simp only [Scene.kindOf, Scene.addChild, Scene.node?_update]
  by_cases h : p = r
  · rw [if_pos h]; cases s.node? r <;> rfl
  · rw [if_neg h]

theorem Scene.length_addChild (s : Scene) (p c : NodeRef) :
    (s.addChild p c).nodes.length = s.nodes.length := by
  simp [Scene.addChild, Scene.update]

theorem Scene.node?_setPosition_ne (s : Scene) (r r' : NodeRef) (p : CCPoint)
    (h : r ≠ r') : (s.setPosition r p).node? r' = s.node? r' := by
  simp [Scene.setPosition, Scene.node?_update, h]

theorem Scene.node?_setPosition_self (s : Scene) (r : NodeRef) (p : CCPoint) :
    (s.setPosition r p).node? r
      = (s.node? r).map (fun n => { n with position := p }) := by
  simp [Scene.setPosition, Scene.node?_update]

theorem Scene.childrenOf_setPosition (s : Scene) (r r' : NodeRef) (p : CCPoint) :
    (s.setPosition r p).childrenOf r' = s.childrenOf r' := by
  simp only [Scene.childrenOf, Scene.setPosition, Scene.node?_update]
  by_cases h : r = r'
  · rw [if_pos h]; cases s.node? r' <;> rfl
  · rw [if_neg h]

theorem Scene.length_withButton (s : Scene) (visual : NodeKind) (target : NodeRef)
    (sel : Selector) : (s.withButton visual target sel).nodes.length = s.nodes.length + 2 := by
  simp [Scene.withButton]

theorem Scene.childrenOf_withButton_old (s : Scene) (visual : NodeKind) (target : NodeRef)
    (sel : Selector) (r : NodeRef) (h : r < s.nodes.length) :
    (s.withButton visual target sel).childrenOf r = s.childrenOf r := by
  simp [Scene.childrenOf, Scene.withButton_node?_old s visual target sel r h]

theorem Scene.kindOf_withButton_button (s : Scene) (visual : NodeKind) (target : NodeRef)
    (sel : Selector) :
    (s.withButton visual target sel).kindOf (s.nodes.length + 1)
      = some (NodeKind.menuItemSpriteExtra s.nodes.length target sel) := by
  simp [Scene.kindOf, Scene.withButton_node?_button, Node.fresh]


/-! ## Claims -/

/-- C1: whenever the original `MenuLayer::init` succeeds (leaving scene `s1`) and the
lookup of `bottom-menu` on that scene finds a node `m`, the first hook returns `true`,
and afterwards the children of `m` are its previous children followed by exactly one
more node; that node did not exist in `s1`, it is a `CCMenuItemSpriteExtra` button, and
no other node that existed in `s1` has gained or lost a child. -/
theorem init_attaches_exactly_one_button (host : Host) (self : NodeRef) (w : World)
    (s1 : Scene) (m : NodeRef)
    (horig : host.menuLayerInit w.scene self = (true, s1))
    (hmenu : s1.getChildByID self "bottom-menu" = some m) :
    ∃ w1, MyMenuLayer.init host self w = Result.ok true w1 ∧
      w1.scene.childrenOf m = s1.childrenOf m ++ [s1.nodes.length + 1] ∧
      s1.node? (s1.nodes.length + 1) = none ∧
      w1.scene.kindOf (s1.nodes.length + 1)
        = some (NodeKind.menuItemSpriteExtra s1.nodes.length self Selector.onMyButton) ∧
      (∀ r, r < s1.nodes.length → r ≠ m → w1.scene.childrenOf r = s1.childrenOf r) := by
  obtain ⟨-, -, hm⟩ := Scene.getChildByID_some s1 self m "bottom-menu" hmenu
  have hmB : m < (s1.withButton (NodeKind.sprite "GJ_likeBtn_001.png") self
      Selector.onMyButton).nodes.length := by
    rw [Scene.length_withButton]; exact Nat.lt_add_right 2 hm
  refine ⟨_, by rw [MyMenuLayer.init_of_orig_true host self w s1 horig, hmenu],
    ?_, ?_, ?_, ?_⟩
  · rw [Scene.childrenOf_relayout, Scene.childrenOf_setID,
      Scene.childrenOf_addChild_self _ _ _ hmB, Scene.childrenOf_withButton_old _ _ _ _ _ hm]
  · exact Scene.node?_none s1 _ (Nat.le_succ _)
  · rw [Scene.kindOf_relayout, Scene.kindOf_setID, Scene.kindOf_addChild,
      Scene.kindOf_withButton_button]
  · intro r hr hrm
    rw [Scene.childrenOf_relayout, Scene.childrenOf_setID,
      Scene.childrenOf_addChild_ne _ _ _ _ (Ne.symm hrm),
      Scene.childrenOf_withButton_old _ _ _ _ _ hr]

/-- C1 at a concrete menu: on `sampleHost` the hook returns `true` and `bottom-menu`
(node 2), which held `[3]`, holds `[3, 5]` afterwards, node 5 being the new button. -/
theorem init_attaches_exactly_one_button_witness :
    sampleHost.menuLayerInit blankWorld.scene 0 = (true, sampleMenu) ∧
    sampleMenu.getChildByID 0 "bottom-menu" = some 2 ∧
    ∃ w1, MyMenuLayer.init sampleHost 0 blankWorld = Result.ok true w1 ∧
      w1.scene.childrenOf 2 = sampleMenu.childrenOf 2 ++ [sampleMenu.nodes.length + 1] ∧
      sampleMenu.node? (sampleMenu.nodes.length + 1) = none ∧
      w1.scene.kindOf (sampleMenu.nodes.length + 1)
        = some (NodeKind.menuItemSpriteExtra sampleMenu.nodes.length 0
            Selector.onMyButton) ∧
      (∀ r, r < sampleMenu.nodes.length → r ≠ 2 →
        w1.scene.childrenOf r = sampleMenu.childrenOf r) :=
  ⟨rfl, by decide,
   init_attaches_exactly_one_button sampleHost 0 blankWorld sampleMenu 2 rfl (by decide)⟩

/-- C2: whenever the original `MenuLayer::init` reports failure, both hooks return
`false`; the scene is the one the original left, nothing new is on screen, and the only
call made is the one to the original: no node is created, looked up or attached, no ID
is set and no layout pass is requested. -/
theorem init_propagates_failure (host : Host) (self : NodeRef) (w : World)
    (h : (host.menuLayerInit w.scene self).1 = false) :
    MyMenuLayer.init host self w = Result.ok false
        { scene := (host.menuLayerInit w.scene self).2, shown := w.shown,
          calls := w.calls ++ [Call.menuLayerInit self] } ∧
      Second.MyMenuLayer.init host self w = Result.ok false
        { scene := (host.menuLayerInit w.scene self).2, shown := w.shown,
          calls := w.calls ++ [Call.menuLayerInit self] } :=
  ⟨MyMenuLayer.init_of_orig_false host self w h,
   Second.MyMenuLayer.second_init_of_orig_false host self w h⟩

/-- C2 at a concrete menu: on `failingHost` both hooks return `false` and leave the
blank layer as it was. -/
theorem init_propagates_failure_witness :
    (failingHost.menuLayerInit blankWorld.scene 0).1 = false ∧
      MyMenuLayer.init failingHost 0 blankWorld = Result.ok false
        { scene := blankLayer, shown := [], calls := [Call.menuLayerInit 0] } ∧
      Second.MyMenuLayer.init failingHost 0 blankWorld = Result.ok false
        { scene := blankLayer, shown := [], calls := [Call.menuLayerInit 0] } :=
  ⟨rfl, init_propagates_failure failingHost 0 blankWorld rfl⟩

/-- C3: for every sender (null included) one call of `onMyButton` returns after exactly
one `FLAlertLayer::create` and one `show` of the dialog with title "Eres muy fea", body
"Zuly fra" and button "Fea"; the outcome is the same as for a null sender. -/
theorem onMyButton_shows_one_dialog (self : NodeRef) (sender : Option NodeRef)
    (w : World) :
    MyMenuLayer.onMyButton self sender w = Result.ok ()
        { scene := w.scene,
          shown := w.shown ++
            [{ title := "Eres muy fea", body := "Zuly fra", button := "Fea" }],
          calls := w.calls ++
            [Call.alertCreate { title := "Eres muy fea", body := "Zuly fra", button := "Fea" },
             Call.alertShow { title := "Eres muy fea", body := "Zuly fra", button := "Fea" }] } ∧
      MyMenuLayer.onMyButton self sender w = MyMenuLayer.onMyButton self none w := by
  constructor
  · simp [MyMenuLayer.onMyButton, bind_apply, FLAlertLayer.create, FLAlertLayer.show,
      World.record]
  · rfl

/-- C4: on every successful run of the first hook, whatever the mod id, the button
that was attached to `bottom-menu` carries the ID `<mod id>/my-button`. -/
theorem init_button_id (host : Host) (self : NodeRef) (w : World)
    (s1 : Scene) (m : NodeRef)
    (horig : host.menuLayerInit w.scene self = (true, s1))
    (hmenu : s1.getChildByID self "bottom-menu" = some m) :
    ∃ w1, MyMenuLayer.init host self w = Result.ok true w1 ∧
      (s1.nodes.length + 1) ∈ w1.scene.childrenOf m ∧
      w1.scene.idOf (s1.nodes.length + 1) = some (host.modID ++ "/" ++ "my-button") := by
  obtain ⟨-, -, hm⟩ := Scene.getChildByID_some s1 self m "bottom-menu" hmenu
  have hmB : m < (s1.withButton (NodeKind.sprite "GJ_likeBtn_001.png") self
      Selector.onMyButton).nodes.length := by
    rw [Scene.length_withButton]; exact Nat.lt_add_right 2 hm
  refine ⟨_, by rw [MyMenuLayer.init_of_orig_true host self w s1 horig, hmenu], ?_, ?_⟩
  · rw [Scene.childrenOf_relayout, Scene.childrenOf_setID,
      Scene.childrenOf_addChild_self _ _ _ hmB]
    simp
  · rw [Scene.idOf_relayout, Scene.idOf_setID_self]
    · rfl
    · rw [Scene.length_addChild, Scene.length_withButton]
      exact Nat.lt_succ_self _

/-- C4 at a concrete menu: with mod id `sebastianjk73.feurdll` the attached button
(node 5) has ID `sebastianjk73.feurdll/my-button`. -/
theorem init_button_id_witness :
    sampleHost.menuLayerInit blankWorld.scene 0 = (true, sampleMenu) ∧
    sampleMenu.getChildByID 0 "bottom-menu" = some 2 ∧
    ∃ w1, MyMenuLayer.init sampleHost 0 blankWorld = Result.ok true w1 ∧
      (sampleMenu.nodes.length + 1) ∈ w1.scene.childrenOf 2 ∧
      w1.scene.idOf (sampleMenu.nodes.length + 1)
        = some (sampleHost.modID ++ "/" ++ "my-button") :=
  ⟨rfl, by decide, init_button_id sampleHost 0 blankWorld sampleMenu 2 rfl (by decide)⟩

/-- C5: when the original `init` succeeds (leaving scene `s1`) but no child of the
layer carries the looked-up ID, neither hook returns: the lookup yields null, the very
next call is `addChild` on that null pointer, and the run ends there as undefined
(first hook: `bottom-menu`; second hook: `main-menu-node`). -/
theorem init_without_container_is_undefined (host : Host) (self : NodeRef) (w : World)
    (s1 : Scene) (horig : host.menuLayerInit w.scene self = (true, s1)) :
    (s1.getChildByID self "bottom-menu" = none →
      ∃ w1, MyMenuLayer.init host self w = Result.undefined w1 ∧
        (MyMenuLayer.init host self w).value? = none ∧
        w1.calls = w.calls ++
          [Call.menuLayerInit self,
           Call.log LogLevel.debug
             "Hello from my MenuLayer::init hook! This layer has \x7b\x7d children."
             [(s1.childrenOf self).length],
           Call.createWithSpriteFrameName "GJ_likeBtn_001.png" s1.nodes.length,
           Call.menuItemCreate s1.nodes.length self Selector.onMyButton
             (s1.nodes.length + 1),
           Call.getChildByID self "bottom-menu" none,
           Call.addChild none (s1.nodes.length + 1)]) ∧
    (s1.getChildByID self "main-menu-node" = none →
      ∃ w1, Second.MyMenuLayer.init host self w = Result.undefined w1 ∧
        (Second.MyMenuLayer.init host self w).value? = none ∧
        w1.calls = w.calls ++
          [Call.menuLayerInit self,
           Call.labelTTFCreate "HOLA" "Arial" 20 s1.nodes.length,
           Call.menuItemCreate s1.nodes.length self Selector.onHelloButton
             (s1.nodes.length + 1),
           Call.getChildByID self "main-menu-node" none,
           Call.addChild none (s1.nodes.length + 1)]) := by
  constructor
  · intro hnone
    rw [MyMenuLayer.init_of_orig_true host self w s1 horig, hnone]
    exact ⟨_, rfl, rfl, rfl⟩
  · intro hnone
    rw [Second.MyMenuLayer.second_init_of_orig_true host self w s1 horig, hnone]
    exact ⟨_, rfl, rfl, rfl⟩

/-- C5 at a concrete menu: on `bareHost` the layer has no children, and both hooks end
undefined right after the failed lookup. -/
theorem init_without_container_is_undefined_witness :
    bareHost.menuLayerInit blankWorld.scene 0 = (true, blankLayer) ∧
    blankLayer.getChildByID 0 "bottom-menu" = none ∧
    blankLayer.getChildByID 0 "main-menu-node" = none ∧
    (∃ w1, MyMenuLayer.init bareHost 0 blankWorld = Result.undefined w1 ∧
        (MyMenuLayer.init bareHost 0 blankWorld).value? = none ∧
        w1.calls =
          [Call.menuLayerInit 0,
           Call.log LogLevel.debug
             "Hello from my MenuLayer::init hook! This layer has \x7b\x7d children." [0],
           Call.createWithSpriteFrameName "GJ_likeBtn_001.png" 1,
           Call.menuItemCreate 1 0 Selector.onMyButton 2,
           Call.getChildByID 0 "bottom-menu" none,
           Call.addChild none 2]) ∧
    (∃ w1, Second.MyMenuLayer.init bareHost 0 blankWorld = Result.undefined w1 ∧
        (Second.MyMenuLayer.init bareHost 0 blankWorld).value? = none ∧
        w1.calls =
          [Call.menuLayerInit 0,
           Call.labelTTFCreate "HOLA" "Arial" 20 1,
           Call.menuItemCreate 1 0 Selector.onHelloButton 2,
           Call.getChildByID 0 "main-menu-node" none,
           Call.addChild none 2]) :=
  ⟨rfl, by decide, by decide,
   (init_without_container_is_undefined bareHost 0 blankWorld blankLayer rfl).1
      (by decide),
   (init_without_container_is_undefined bareHost 0 blankWorld blankLayer rfl).2
      (by decide)⟩

/-- C6: after a successful run of the first hook, the node it attached to `bottom-menu`
is a button bound to `onMyButton` on the layer itself; activating it is the call
`onMyButton(button)` on the layer, which puts exactly one dialog on screen, the one with
the strings "Eres muy fea", "Zuly fra", "Fea".  The hook itself shows no dialog. -/
theorem activating_attached_button_shows_dialog (host : Host) (self : NodeRef)
    (w : World) (s1 : Scene) (m : NodeRef)
    (horig : host.menuLayerInit w.scene self = (true, s1))
    (hmenu : s1.getChildByID self "bottom-menu" = some m) :
    ∃ w1, MyMenuLayer.init host self w = Result.ok true w1 ∧
      w1.shown = w.shown ∧
      (s1.nodes.length + 1) ∈ w1.scene.childrenOf m ∧
      w1.scene.kindOf (s1.nodes.length + 1)
        = some (NodeKind.menuItemSpriteExtra s1.nodes.length self Selector.onMyButton) ∧
      CCMenuItem.activate (s1.nodes.length + 1) w1
        = MyMenuLayer.onMyButton self (some (s1.nodes.length + 1)) w1 ∧
      CCMenuItem.activate (s1.nodes.length + 1) w1 = Result.ok ()
        { scene := w1.scene,
          shown := w1.shown ++
            [{ title := "Eres muy fea", body := "Zuly fra", button := "Fea" }],
          calls := w1.calls ++
            [Call.alertCreate { title := "Eres muy fea", body := "Zuly fra", button := "Fea" },
             Call.alertShow { title := "Eres muy fea", body := "Zuly fra", button := "Fea" }] } := by
  obtain ⟨-, -, hm⟩ := Scene.getChildByID_some s1 self m "bottom-menu" hmenu
  have hmB : m < (s1.withButton (NodeKind.sprite "GJ_likeBtn_001.png") self
      Selector.onMyButton).nodes.length := by
    rw [Scene.length_withButton]; exact Nat.lt_add_right 2 hm
  have hk : (Scene.relayout host
      (((s1.withButton (NodeKind.sprite "GJ_likeBtn_001.png") self
          Selector.onMyButton).addChild m (s1.nodes.length + 1)).setID
        (s1.nodes.length + 1) (spr host "my-button")) m).kindOf (s1.nodes.length + 1)
      = some (NodeKind.menuItemSpriteExtra s1.nodes.length self Selector.onMyButton) := by
    rw [Scene.kindOf_relayout, Scene.kindOf_setID, Scene.kindOf_addChild,
      Scene.kindOf_withButton_button]
  have hact : ∀ w1 : World, w1.scene.kindOf (s1.nodes.length + 1)
      = some (NodeKind.menuItemSpriteExtra s1.nodes.length self Selector.onMyButton) →
      CCMenuItem.activate (s1.nodes.length + 1) w1
        = MyMenuLayer.onMyButton self (some (s1.nodes.length + 1)) w1 := by
    intro w1 h1
    unfold Scene.kindOf at h1
    simp only [CCMenuItem.activate, h1, Selector.invoke]
  have hrun := MyMenuLayer.init_of_orig_true host self w s1 horig
  simp only [hmenu] at hrun
  refine ⟨_, hrun, rfl, ?_, hk, hact _ hk, ?_⟩
  · rw [Scene.childrenOf_relayout, Scene.childrenOf_setID,
      Scene.childrenOf_addChild_self _ _ _ hmB]
    simp
  · rw [hact _ hk]
    simp [MyMenuLayer.onMyButton, bind_apply, FLAlertLayer.create, FLAlertLayer.show,
      World.record]

/-- C6 at a concrete menu: on `sampleHost` the attached button is node 5, and
activating it shows the one dialog. -/
theorem activating_attached_button_shows_dialog_witness :
    sampleHost.menuLayerInit blankWorld.scene 0 = (true, sampleMenu) ∧
    sampleMenu.getChildByID 0 "bottom-menu" = some 2 ∧
    ∃ w1, MyMenuLayer.init sampleHost 0 blankWorld = Result.ok true w1 ∧
      w1.shown = blankWorld.shown ∧
      (sampleMenu.nodes.length + 1) ∈ w1.scene.childrenOf 2 ∧
      w1.scene.kindOf (sampleMenu.nodes.length + 1)
        = some (NodeKind.menuItemSpriteExtra sampleMenu.nodes.length 0
            Selector.onMyButton) ∧
      CCMenuItem.activate (sampleMenu.nodes.length + 1) w1
        = MyMenuLayer.onMyButton 0 (some (sampleMenu.nodes.length + 1)) w1 ∧
      CCMenuItem.activate (sampleMenu.nodes.length + 1) w1 = Result.ok ()
        { scene := w1.scene,
          shown := w1.shown ++
            [{ title := "Eres muy fea", body := "Zuly fra", button := "Fea" }],
          calls := w1.calls ++
            [Call.alertCreate { title := "Eres muy fea", body := "Zuly fra", button := "Fea" },
             Call.alertShow { title := "Eres muy fea", body := "Zuly fra", button := "Fea" }] } :=
  ⟨rfl, by decide,
   activating_attached_button_shows_dialog sampleHost 0 blankWorld sampleMenu 2 rfl
     (by decide)⟩

/-- C7: every run of either hook begins by running the original `MenuLayer::init` on
`this`, on the scene the hook was entered with, and runs it exactly once.  The first
call of the run is the original and no later call is; the rest of the run works on the
scene the original left: when the original returns `false` the hook returns `false` at
once, with exactly that scene and no further call, and when it returns `true` the hook
goes on from that scene (to the undefined `addChild` on a null container, or to `true`
with its button added to that scene). -/
theorem original_init_is_called_first_and_once (host : Host) (self : NodeRef)
    (w : World) :
    ((∃ rest, (MyMenuLayer.init host self w).world.calls
          = w.calls ++ Call.menuLayerInit self :: rest ∧
        ∀ r, Call.menuLayerInit r ∉ rest) ∧
      ((host.menuLayerInit w.scene self).1 = false →
        MyMenuLayer.init host self w = Result.ok false
          { scene := (host.menuLayerInit w.scene self).2, shown := w.shown,
            calls := w.calls ++ [Call.menuLayerInit self] }) ∧
      ((host.menuLayerInit w.scene self).1 = true →
        MyMenuLayer.init host self w =
          match (host.menuLayerInit w.scene self).2.getChildByID self "bottom-menu" with
          | none => Result.undefined
              { scene := (host.menuLayerInit w.scene self).2.withButton
                  (NodeKind.sprite "GJ_likeBtn_001.png") self Selector.onMyButton,
                shown := w.shown,
                calls := w.calls ++
                  [Call.menuLayerInit self,
                   Call.log LogLevel.debug
                     "Hello from my MenuLayer::init hook! This layer has \x7b\x7d children."
                     [((host.menuLayerInit w.scene self).2.childrenOf self).length],
                   Call.createWithSpriteFrameName "GJ_likeBtn_001.png"
                     (host.menuLayerInit w.scene self).2.nodes.length,
                   Call.menuItemCreate (host.menuLayerInit w.scene self).2.nodes.length
                     self Selector.onMyButton
                     ((host.menuLayerInit w.scene self).2.nodes.length + 1),
                   Call.getChildByID self "bottom-menu" none,
                   Call.addChild none
                     ((host.menuLayerInit w.scene self).2.nodes.length + 1)] }
          | some m => Result.ok true
              { scene := Scene.relayout host
                  ((((host.menuLayerInit w.scene self).2.withButton
                      (NodeKind.sprite "GJ_likeBtn_001.png") self
                      Selector.onMyButton).addChild m
                        ((host.menuLayerInit w.scene self).2.nodes.length + 1)).setID
                    ((host.menuLayerInit w.scene self).2.nodes.length + 1)
                    (spr host "my-button")) m,
                shown := w.shown,
                calls := w.calls ++
                  [Call.menuLayerInit self,
                   Call.log LogLevel.debug
                     "Hello from my MenuLayer::init hook! This layer has \x7b\x7d children."
                     [((host.menuLayerInit w.scene self).2.childrenOf self).length],
                   Call.createWithSpriteFrameName "GJ_likeBtn_001.png"
                     (host.menuLayerInit w.scene self).2.nodes.length,
                   Call.menuItemCreate (host.menuLayerInit w.scene self).2.nodes.length
                     self Selector.onMyButton
                     ((host.menuLayerInit w.scene self).2.nodes.length + 1),
                   Call.getChildByID self "bottom-menu" (some m),
                   Call.addChild (some m)
                     ((host.menuLayerInit w.scene self).2.nodes.length + 1),
                   Call.setID ((host.menuLayerInit w.scene self).2.nodes.length + 1)
                     (spr host "my-button"),
                   Call.updateLayout (some m)] })) ∧
    ((∃ rest, (Second.MyMenuLayer.init host self w).world.calls
          = w.calls ++ Call.menuLayerInit self :: rest ∧
        ∀ r, Call.menuLayerInit r ∉ rest) ∧
      ((host.menuLayerInit w.scene self).1 = false →
        Second.MyMenuLayer.init host self w = Result.ok false
          { scene := (host.menuLayerInit w.scene self).2, shown := w.shown,
            calls := w.calls ++ [Call.menuLayerInit self] }) ∧
      ((host.menuLayerInit w.scene self).1 = true →
        Second.MyMenuLayer.init host self w =
          match (host.menuLayerInit w.scene self).2.getChildByID self "main-menu-node" with
          | none => Result.undefined
              { scene := (host.menuLayerInit w.scene self).2.withButton
                  (NodeKind.labelTTF "HOLA" "Arial" 20) self Selector.onHelloButton,
                shown := w.shown,
                calls := w.calls ++
                  [Call.menuLayerInit self,
                   Call.labelTTFCreate "HOLA" "Arial" 20
                     (host.menuLayerInit w.scene self).2.nodes.length,
                   Call.menuItemCreate (host.menuLayerInit w.scene self).2.nodes.length
                     self Selector.onHelloButton
                     ((host.menuLayerInit w.scene self).2.nodes.length + 1),
                   Call.getChildByID self "main-menu-node" none,
                   Call.addChild none
                     ((host.menuLayerInit w.scene self).2.nodes.length + 1)] }
          | some m => Result.ok true
              { scene := (((host.menuLayerInit w.scene self).2.withButton
                    (NodeKind.labelTTF "HOLA" "Arial" 20) self
                    Selector.onHelloButton).addChild m
                      ((host.menuLayerInit w.scene self).2.nodes.length + 1)).setPosition
                  ((host.menuLayerInit w.scene self).2.nodes.length + 1) ⟨-100, -100⟩,
                shown := w.shown,
                calls := w.calls ++
                  [Call.menuLayerInit self,
                   Call.labelTTFCreate "HOLA" "Arial" 20
                     (host.menuLayerInit w.scene self).2.nodes.length,
                   Call.menuItemCreate (host.menuLayerInit w.scene self).2.nodes.length
                     self Selector.onHelloButton
                     ((host.menuLayerInit w.scene self).2.nodes.length + 1),
                   Call.getChildByID self "main-menu-node" (some m),
                   Call.addChild (some m)
                     ((host.menuLayerInit w.scene self).2.nodes.length + 1),
                   Call.setPosition
                     ((host.menuLayerInit w.scene self).2.nodes.length + 1) ⟨-100, -100⟩,
                   Call.log LogLevel.info "Botón 'HOLA' añadido al menú principal."
                     []] })) ∧
    ((host.menuLayerInit w.scene self).1 = false →
      (MyMenuLayer.init host self w).value? = some false ∧
      (Second.MyMenuLayer.init host self w).value? = some false) := by
  have hpair : ∀ b, (host.menuLayerInit w.scene self).1 = b →
      host.menuLayerInit w.scene self = (b, (host.menuLayerInit w.scene self).2) := by
    intro b hb
    rw [← hb]
  refine ⟨⟨?_, MyMenuLayer.init_of_orig_false host self w,
      fun h => MyMenuLayer.init_of_orig_true host self w _ (hpair true h)⟩,
    ⟨?_, Second.MyMenuLayer.second_init_of_orig_false host self w,
      fun h => Second.MyMenuLayer.second_init_of_orig_true host self w _ (hpair true h)⟩,
    ?_⟩
  · cases horig : host.menuLayerInit w.scene self with
    | mk b s1 =>
      cases b with
      | false =>
        rw [MyMenuLayer.init_of_orig_false host self w (by rw [horig])]
        exact ⟨[], rfl, by simp⟩
      | true =>
        rw [MyMenuLayer.init_of_orig_true host self w s1 horig]
        cases s1.getChildByID self "bottom-menu" with
        | none => exact ⟨_, rfl, by simp⟩
        | some m => exact ⟨_, rfl, by simp⟩
  · cases horig : host.menuLayerInit w.scene self with
    | mk b s1 =>
      cases b with
      | false =>
        rw [Second.MyMenuLayer.second_init_of_orig_false host self w (by rw [horig])]
        exact ⟨[], rfl, by simp⟩
      | true =>
        rw [Second.MyMenuLayer.second_init_of_orig_true host self w s1 horig]
        cases s1.getChildByID self "main-menu-node" with
        | none => exact ⟨_, rfl, by simp⟩
        | some m => exact ⟨_, rfl, by simp⟩
  · intro h
    rw [MyMenuLayer.init_of_orig_false host self w h,
      Second.MyMenuLayer.second_init_of_orig_false host self w h]
    exact ⟨rfl, rfl⟩

/-- C7 at concrete menus.  On `failingHost` the original returns `false` and each hook
returns `false` with the original as its only call and the scene the original left.  On
`sampleHost` the original returns `true` and builds `sampleMenu`; each hook returns
`true`, its calls start with the one call of the original, and its button lands in the
menu the original built (`bottom-menu` is node 2, `main-menu-node` is node 1). -/
theorem original_init_is_called_first_and_once_witness :
    (failingHost.menuLayerInit blankWorld.scene 0).1 = false ∧
    MyMenuLayer.init failingHost 0 blankWorld = Result.ok false
      { scene := blankLayer, shown := [], calls := [Call.menuLayerInit 0] } ∧
    Second.MyMenuLayer.init failingHost 0 blankWorld = Result.ok false
      { scene := blankLayer, shown := [], calls := [Call.menuLayerInit 0] } ∧
    (sampleHost.menuLayerInit blankWorld.scene 0).1 = true ∧
    (MyMenuLayer.init sampleHost 0 blankWorld).value? = some true ∧
    (MyMenuLayer.init sampleHost 0 blankWorld).world.calls =
      [Call.menuLayerInit 0,
       Call.log LogLevel.debug
         "Hello from my MenuLayer::init hook! This layer has \x7b\x7d children." [2],
       Call.createWithSpriteFrameName "GJ_likeBtn_001.png" 4,
       Call.menuItemCreate 4 0 Selector.onMyButton 5,
       Call.getChildByID 0 "bottom-menu" (some 2),
       Call.addChild (some 2) 5,
       Call.setID 5 "sebastianjk73.feurdll/my-button",
       Call.updateLayout (some 2)] ∧
    (MyMenuLayer.init sampleHost 0 blankWorld).world.scene.childrenOf 2 = [3, 5] ∧
    (Second.MyMenuLayer.init sampleHost 0 blankWorld).value? = some true ∧
    (Second.MyMenuLayer.init sampleHost 0 blankWorld).world.calls =
      [Call.menuLayerInit 0,
       Call.labelTTFCreate "HOLA" "Arial" 20 4,
       Call.menuItemCreate 4 0 Selector.onHelloButton 5,
       Call.getChildByID 0 "main-menu-node" (some 1),
       Call.addChild (some 1) 5,
       Call.setPosition 5 ⟨-100, -100⟩,
       Call.log LogLevel.info "Botón 'HOLA' añadido al menú principal." []] ∧
    (Second.MyMenuLayer.init sampleHost 0 blankWorld).world.scene.childrenOf 1 = [5] := by
  have hf := original_init_is_called_first_and_once failingHost 0 blankWorld
  have hs := original_init_is_called_first_and_once sampleHost 0 blankWorld
  have h1 := hs.1.2.2 rfl
  have h2 := hs.2.1.2.2 rfl
  refine ⟨rfl, hf.1.2.1 rfl, hf.2.1.2.1 rfl, rfl, ?_, ?_, ?_, ?_, ?_, ?_⟩
  · rw [h1]; decide
  · rw [h1]; decide
  · rw [h1]; decide
  · rw [h2]; decide
  · rw [h2]; decide
  · rw [h2]; decide

/-- C8: on every successful run of the first hook the calls of the run are, in order:
the original `init`, the log line, the two `create` calls, the lookup of `bottom-menu`
returning `m`, `m->addChild(button)`, `button->setID(...)`, `m->updateLayout()`.  So
there is exactly one layout request, it is on the container the button was attached to,
and it comes last; the scene it runs on already has the button among the children of
`m`, carrying its ID. -/
theorem init_requests_layout_once_after_attach_and_id (host : Host) (self : NodeRef)
    (w : World) (s1 : Scene) (m : NodeRef)
    (horig : host.menuLayerInit w.scene self = (true, s1))
    (hmenu : s1.getChildByID self "bottom-menu" = some m) :
    ∃ w1 sPre, MyMenuLayer.init host self w = Result.ok true w1 ∧
      w1.calls = w.calls ++
        [Call.menuLayerInit self,
         Call.log LogLevel.debug
           "Hello from my MenuLayer::init hook! This layer has \x7b\x7d children."
           [(s1.childrenOf self).length],
         Call.createWithSpriteFrameName "GJ_likeBtn_001.png" s1.nodes.length,
         Call.menuItemCreate s1.nodes.length self Selector.onMyButton
           (s1.nodes.length + 1),
         Call.getChildByID self "bottom-menu" (some m),
         Call.addChild (some m) (s1.nodes.length + 1),
         Call.setID (s1.nodes.length + 1) (spr host "my-button"),
         Call.updateLayout (some m)] ∧
      w1.scene = Scene.relayout host sPre m ∧
      (s1.nodes.length + 1) ∈ sPre.childrenOf m ∧
      sPre.idOf (s1.nodes.length + 1) = some (spr host "my-button") := by
  obtain ⟨-, -, hm⟩ := Scene.getChildByID_some s1 self m "bottom-menu" hmenu
  have hmB : m < (s1.withButton (NodeKind.sprite "GJ_likeBtn_001.png") self
      Selector.onMyButton).nodes.length := by
    rw [Scene.length_withButton]; exact Nat.lt_add_right 2 hm
  have hrun := MyMenuLayer.init_of_orig_true host self w s1 horig
  simp only [hmenu] at hrun
  refine ⟨_, _, hrun, rfl, rfl, ?_, ?_⟩
  · rw [Scene.childrenOf_setID, Scene.childrenOf_addChild_self _ _ _ hmB]
    simp
  · rw [Scene.idOf_setID_self]
    rw [Scene.length_addChild, Scene.length_withButton]
    exact Nat.lt_succ_self _

/-- C8 at a concrete menu: on `sampleHost` the run ends with `addChild`, `setID`,
`updateLayout` on `bottom-menu` (node 2) and the button (node 5). -/
theorem init_requests_layout_once_after_attach_and_id_witness :
    sampleHost.menuLayerInit blankWorld.scene 0 = (true, sampleMenu) ∧
    sampleMenu.getChildByID 0 "bottom-menu" = some 2 ∧
    ∃ w1 sPre, MyMenuLayer.init sampleHost 0 blankWorld = Result.ok true w1 ∧
      w1.calls = blankWorld.calls ++
        [Call.menuLayerInit 0,
         Call.log LogLevel.debug
           "Hello from my MenuLayer::init hook! This layer has \x7b\x7d children."
           [(sampleMenu.childrenOf 0).length],
         Call.createWithSpriteFrameName "GJ_likeBtn_001.png" sampleMenu.nodes.length,
         Call.menuItemCreate sampleMenu.nodes.length 0 Selector.onMyButton
           (sampleMenu.nodes.length + 1),
         Call.getChildByID 0 "bottom-menu" (some 2),
         Call.addChild (some 2) (sampleMenu.nodes.length + 1),
         Call.setID (sampleMenu.nodes.length + 1) (spr sampleHost "my-button"),
         Call.updateLayout (some 2)] ∧
      w1.scene = Scene.relayout sampleHost sPre 2 ∧
      (sampleMenu.nodes.length + 1) ∈ sPre.childrenOf 2 ∧
      sPre.idOf (sampleMenu.nodes.length + 1) = some (spr sampleHost "my-button") :=
  ⟨rfl, by decide,
   init_requests_layout_once_after_attach_and_id sampleHost 0 blankWorld sampleMenu 2 rfl
     (by decide)⟩

/-- C9: whenever the original `init` succeeds (leaving scene `s1`) and the lookup of
`main-menu-node` finds a node `m`, the second hook returns `true`; afterwards the
children of `m` are its previous children followed by one node that did not exist in
`s1`: a button bound to `onHelloButton` whose image is a new `CCLabelTTF` "HOLA", at
position (-100, -100), with empty ID.  Every other node of `s1` is unchanged, in
particular the node a lookup of `bottom-menu` would find, and the calls of the run
contain neither a `setID` nor an `updateLayout`. -/
theorem second_init_attaches_label_button (host : Host) (self : NodeRef)
    (w : World) (s1 : Scene) (m : NodeRef)
    (horig : host.menuLayerInit w.scene self = (true, s1))
    (hmenu : s1.getChildByID self "main-menu-node" = some m) :
    ∃ w1, Second.MyMenuLayer.init host self w = Result.ok true w1 ∧
      w1.scene.childrenOf m = s1.childrenOf m ++ [s1.nodes.length + 1] ∧
      s1.node? (s1.nodes.length + 1) = none ∧
      w1.scene.node? (s1.nodes.length + 1) = some
        { kind := NodeKind.menuItemSpriteExtra s1.nodes.length self Selector.onHelloButton,
          id := "", children := [s1.nodes.length], position := ⟨-100, -100⟩ } ∧
      w1.scene.node? s1.nodes.length = some
        { kind := NodeKind.labelTTF "HOLA" "Arial" 20, id := "", children := [],
          position := ⟨0, 0⟩ } ∧
      (∀ r, r < s1.nodes.length → r ≠ m → w1.scene.node? r = s1.node? r) ∧
      (∀ b, s1.getChildByID self "bottom-menu" = some b →
        w1.scene.childrenOf b = s1.childrenOf b) ∧
      w1.calls = w.calls ++
        [Call.menuLayerInit self,
         Call.labelTTFCreate "HOLA" "Arial" 20 s1.nodes.length,
         Call.menuItemCreate s1.nodes.length self Selector.onHelloButton
           (s1.nodes.length + 1),
         Call.getChildByID self "main-menu-node" (some m),
         Call.addChild (some m) (s1.nodes.length + 1),
         Call.setPosition (s1.nodes.length + 1) ⟨-100, -100⟩,
         Call.log LogLevel.info "Botón 'HOLA' añadido al menú principal." []] := by
  obtain ⟨-, hidm, hm⟩ := Scene.getChildByID_some s1 self m "main-menu-node" hmenu
  have hmB : m < (s1.withButton (NodeKind.labelTTF "HOLA" "Arial" 20) self
      Selector.onHelloButton).nodes.length := by
    rw [Scene.length_withButton]; exact Nat.lt_add_right 2 hm
  have hne : m ≠ s1.nodes.length + 1 := Nat.ne_of_lt (Nat.lt_succ_of_lt hm)
  have hold : ∀ r, r < s1.nodes.length → r ≠ m →
      (((s1.withButton (NodeKind.labelTTF "HOLA" "Arial" 20) self
          Selector.onHelloButton).addChild m (s1.nodes.length + 1)).setPosition
        (s1.nodes.length + 1) ⟨-100, -100⟩).node? r = s1.node? r := by
    intro r hr hrm
    rw [Scene.node?_setPosition_ne _ _ _ _ (Ne.symm (Nat.ne_of_lt (Nat.lt_succ_of_lt hr))),
      Scene.node?_addChild_ne _ _ _ _ (Ne.symm hrm),
      Scene.withButton_node?_old _ _ _ _ _ hr]
  have hrun := Second.MyMenuLayer.second_init_of_orig_true host self w s1 horig
  simp only [hmenu] at hrun
  refine ⟨_, hrun, ?_, ?_, ?_, ?_, hold, ?_, rfl⟩
  · rw [Scene.childrenOf_setPosition, Scene.childrenOf_addChild_self _ _ _ hmB,
      Scene.childrenOf_withButton_old _ _ _ _ _ hm]
  · exact Scene.node?_none s1 _ (Nat.le_succ _)
  · rw [Scene.node?_setPosition_self, Scene.node?_addChild_ne _ _ _ _ hne,
      Scene.withButton_node?_button]
    rfl
  · rw [Scene.node?_setPosition_ne _ _ _ _ (Nat.succ_ne_self _),
      Scene.node?_addChild_ne _ _ _ _ (Nat.ne_of_lt hm), Scene.withButton_node?_visual]
    rfl
  · intro b hb
    obtain ⟨-, hidb, hbl⟩ := Scene.getChildByID_some s1 self b "bottom-menu" hb
    have hbm : b ≠ m := by
      intro hEq
      rw [hEq, hidm] at hidb
      exact absurd hidb (by decide)
    simp only [Scene.childrenOf, hold b hbl hbm]

/-- C9 at a concrete menu: on `sampleHost` the button (node 5) goes to `main-menu-node`
(node 1), which had no children, and `bottom-menu` (node 2) keeps its children. -/
theorem second_init_attaches_label_button_witness :
    sampleHost.menuLayerInit blankWorld.scene 0 = (true, sampleMenu) ∧
    sampleMenu.getChildByID 0 "main-menu-node" = some 1 ∧
    ∃ w1, Second.MyMenuLayer.init sampleHost 0 blankWorld = Result.ok true w1 ∧
      w1.scene.childrenOf 1 = sampleMenu.childrenOf 1 ++ [sampleMenu.nodes.length + 1] ∧
      sampleMenu.node? (sampleMenu.nodes.length + 1) = none ∧
      w1.scene.node? (sampleMenu.nodes.length + 1) = some
        { kind := NodeKind.menuItemSpriteExtra sampleMenu.nodes.length 0
            Selector.onHelloButton,
          id := "", children := [sampleMenu.nodes.length], position := ⟨-100, -100⟩ } ∧
      w1.scene.node? sampleMenu.nodes.length = some
        { kind := NodeKind.labelTTF "HOLA" "Arial" 20, id := "", children := [],
          position := ⟨0, 0⟩ } ∧
      (∀ r, r < sampleMenu.nodes.length → r ≠ 1 → w1.scene.node? r = sampleMenu.node? r) ∧
      (∀ b, sampleMenu.getChildByID 0 "bottom-menu" = some b →
        w1.scene.childrenOf b = sampleMenu.childrenOf b) ∧
      w1.calls = blankWorld.calls ++
        [Call.menuLayerInit 0,
         Call.labelTTFCreate "HOLA" "Arial" 20 sampleMenu.nodes.length,
         Call.menuItemCreate sampleMenu.nodes.length 0 Selector.onHelloButton
           (sampleMenu.nodes.length + 1),
         Call.getChildByID 0 "main-menu-node" (some 1),
         Call.addChild (some 1) (sampleMenu.nodes.length + 1),
         Call.setPosition (sampleMenu.nodes.length + 1) ⟨-100, -100⟩,
         Call.log LogLevel.info "Botón 'HOLA' añadido al menú principal." []] :=
  ⟨rfl, by decide,
   second_init_attaches_label_button sampleHost 0 blankWorld sampleMenu 1 rfl (by decide)⟩

/-- C10: both callbacks return for every state and sender, leave the scene graph as it
was, and add the same fixed dialog to the screen whatever the state; invoking a callback
twice leaves the same scene graph as invoking it once (each invocation shows its own
dialog). -/
theorem callbacks_leave_scene_unchanged (self : NodeRef) (sender : Option NodeRef)
    (w : World) :
    ((MyMenuLayer.onMyButton self sender w).value? = some () ∧
      (MyMenuLayer.onMyButton self sender w).world.scene = w.scene ∧
      (MyMenuLayer.onMyButton self sender w).world.shown = w.shown ++ [myButtonDialog] ∧
      ((MyMenuLayer.onMyButton self sender >>=
          fun _ => MyMenuLayer.onMyButton self sender) w).world.scene
        = (MyMenuLayer.onMyButton self sender w).world.scene ∧
      ((MyMenuLayer.onMyButton self sender >>=
          fun _ => MyMenuLayer.onMyButton self sender) w).world.shown
        = w.shown ++ [myButtonDialog, myButtonDialog]) ∧
    ((onHelloButton sender w).value? = some () ∧
      (onHelloButton sender w).world.scene = w.scene ∧
      (onHelloButton sender w).world.shown = w.shown ++ [helloDialog] ∧
      ((onHelloButton sender >>= fun _ => onHelloButton sender) w).world.scene
        = (onHelloButton sender w).world.scene ∧
      ((onHelloButton sender >>= fun _ => onHelloButton sender) w).world.shown
        = w.shown ++ [helloDialog, helloDialog]) := by
  simp [MyMenuLayer.onMyButton, onHelloButton, bind_apply, FLAlertLayer.create,
    FLAlertLayer.show, World.record, Result.world, Result.value?, myButtonDialog,
    helloDialog]

end Feurdll
